import Mathlib

/-
Verification of the RPC frontend (src/node/rpc/frontend.h) and the client
signature record (src/node/clientsignatures.h) of the CCF repository, as a
shallow embedding in Lean 4.

Modelling conventions:
- JSON values (nlohmann::json, an external library) are modelled by the
  inductive JVal below; object member lookup models json::find.
- Byte buffers (std::vector<uint8_t>, CBuffer) are List Nat.
- Null pointers (ClientSignatures*, Certs*, Nodes*, kv::Replicator*) are
  modelled by Option: none models nullptr.
- The msgpack codec of nlohmann (to_msgpack / from_msgpack) is external
  library code; functions that use it take it as an explicit parameter.
- C++ exceptions that escape a frontend function are modelled by the
  Except String monad; the error string names the throwing operation.
- The kv store, transactions, the consensus (raft) interface, the history
  and the node directory are external collaborators (they are not under
  src/); they are modelled by small structures of observable values, per
  the interfaces the frontend uses.
-/

namespace CCF

/-- Byte strings: std::vector of uint8_t and CBuffer contents. -/
abbrev Bytes := List Nat

/-- Model of nlohmann::json values. -/
inductive JVal where
  | null : JVal
  | jbool : Bool → JVal
  | num : Int → JVal
  | str : String → JVal
  | arr : List JVal → JVal
  | obj : List (String × JVal) → JVal

/-- Association-list lookup, modelling map/unordered_map find and kv get. -/
def alookup {α β : Type} [DecidableEq α] : List (α × β) → α → Option β
  | [], _ => none
  | (k, v) :: rest, key => if k = key then some v else alookup rest key

/-- Association-list overwrite, modelling map/kv put (insert or replace). -/
def mapPut {α β : Type} [DecidableEq α] : List (α × β) → α → β → List (α × β)
  | [], key, v => [(key, v)]
  | (k, w) :: rest, key, v =>
    if k = key then (key, v) :: rest else (k, w) :: mapPut rest key v

/-- Member lookup on a JSON value, modelling nlohmann json::find: only
objects have members; find on any other value yields end (none). -/
def jfind : JVal → String → Option JVal
  | .obj fs, key => alookup fs key
  | _, _ => none

/-- Comparison of a JSON value against a string literal, modelling
nlohmann operator== between a json value and a string. -/
def jvalIsStr (v : JVal) (s : String) : Bool :=
  match v with
  | .str t => t = s
  | _ => false

/-- Whether a JSON value is an object, modelling json::is_object. -/
def jIsObj : JVal → Bool
  | .obj _ => true
  | _ => false

/-- Conversion of a list of JSON values to bytes: element-wise uint8_t
extraction, failing on non-numeric elements; negative values fail the
get, larger values are truncated as by static_cast to uint8_t. -/
def asBytesList : List JVal → Except String Bytes
  | [] => .ok []
  | .num n :: rest =>
    if 0 ≤ n then
      match asBytesList rest with
      | .ok bs => .ok ((n % 256).toNat :: bs)
      | .error e => .error e
    else .error "get of negative value as uint8_t"
  | _ :: _ => .error "get of non-number element as uint8_t"

/-- Conversion of a JSON value to a byte vector, modelling
assign_j of a std::vector of uint8_t (json get): the value must be an
array of numbers. -/
def asBytes : JVal → Except String Bytes
  | .arr xs => asBytesList xs
  | _ => .error "get of non-array value as byte vector"

/-- Projection of a byte vector into a JSON array of numbers, modelling
the nlohmann serialisation of std::vector of uint8_t. -/
def bytesToJVal (bs : Bytes) : JVal :=
  .arr (bs.map (fun b => .num (Int.ofNat b)))

/-- MBEDTLS_MD_NONE, the default hash algorithm tag (mbedtls enum, value
0 in the external mbedtls header). -/
def MBEDTLS_MD_NONE : Nat := 0

/-- SignedReq from src/node/clientsignatures.h: signature, signed content
(packed bytes of the inner request), raw request body, hash algorithm. -/
structure SignedReq where
  sig : Bytes := []
  req : Bytes := []
  raw_req : Bytes := []
  md : Nat := MBEDTLS_MD_NONE
deriving DecidableEq

/-- to_json for SignedReq (clientsignatures.h lines 40-54): each of sig,
req, raw_req is written only when non-empty; req is re-expanded with
from_msgpack (the external codec parameter mpUnpack); md is not written.
The fields of the resulting JSON object, in write order. -/
def to_json (mpUnpack : Bytes → JVal) (sr : SignedReq) : JVal :=
  .obj
    ((if sr.sig = [] then [] else [("sig", bytesToJVal sr.sig)]) ++
     (if sr.req = [] then [] else [("req", mpUnpack sr.req)]) ++
     (if sr.raw_req = [] then [] else [("raw_req", bytesToJVal sr.raw_req)]))

/-- from_json for SignedReq (clientsignatures.h lines 56-73), starting
from a default-constructed SignedReq. As in the source, the check guarding
the assignment of sig probes the key "req" (not "sig"); when that check
passes but "sig" is absent, the source reads j["sig"] on a const json,
which is undefined; that case is modelled as a failure. req is re-packed
with to_msgpack (the external codec parameter mpPack); md is never read. -/
def from_json (mpPack : JVal → Bytes) (j : JVal) : Except String SignedReq := do
  let sr : SignedReq := {}
  let sr ←
    match jfind j "req" with
    | some _ =>
      match jfind j "sig" with
      | some sv =>
        match asBytes sv with
        | .ok bs => .ok { sr with sig := bs }
        | .error e => .error e
      | none => .error "const json operator[] on absent key sig"
    | none => .ok sr
  let sr :=
    match jfind j "req" with
    | some rv => { sr with req := mpPack rv }
    | none => sr
  let sr ←
    match jfind j "raw_req" with
    | some rv =>
      match asBytes rv with
      | .ok bs => .ok { sr with raw_req := bs }
      | .error e => .error e
    | none => .ok sr
  .ok sr

/-- Wire encodings (jsonrpc::Pack). -/
inductive Pack where
  | Text : Pack
  | MsgPack : Pack
deriving DecidableEq

/-- detect_pack (frontend.h lines 437-446): empty input has no pack; a
first byte of 0x7B (the opening brace) selects Text; anything else
selects MsgPack. -/
def detect_pack (input : Bytes) : Option Pack :=
  match input with
  | [] => none
  | b :: _ => if b = 123 then some Pack.Text else some Pack.MsgPack

/-- Error codes of jsonrpc.h (not under src/). Modelled from the spec:
stable integer tags whose concrete values the spec leaves open; an
inductive of the named codes, plus the code carried by an RpcException. -/
inductive ErrCode where
  | INVALID_REQUEST
  | PARSE_ERROR
  | METHOD_NOT_FOUND
  | INVALID_PARAMS
  | INTERNAL_ERROR
  | INVALID_CALLER_ID
  | INVALID_CLIENT_SIGNATURE
  | TX_NOT_LEADER
  | TX_LEADER_UNKNOWN
  | TX_FAILED_TO_REPLICATE
  | custom (n : Int)
deriving DecidableEq

/-- JSON-RPC response envelopes of jsonrpc.h (not under src/). Modelled
from the spec: an error response carries the seq_no (the id), a code and
a message; the two-argument error_response overload used by unpack_json
carries seq_no 0 (spec section 4.1: errors produced before a valid id has
been parsed carry seq_no = 0); a handler-supplied error body is carried
verbatim; a success response carries the payload and the commit
annotation, plus term and global_commit when consensus is present. -/
inductive Response where
  | error (seqNo : Int) (code : ErrCode) (msg : String)
  | errorBody (seqNo : Int) (body : JVal)
  | success (seqNo : Int) (result : JVal) (commit : Int)
      (term : Option Int) (globalCommit : Option Int)

/-- INVALID_ID, the sentinel caller id from entities.h (not under src/).
Modelled from the spec: an opaque sentinel meaning no certificate map is
configured; its concrete value is immaterial to the claims. -/
def INVALID_ID : Nat := 0

/-- Frontend state relevant to the claims: the verifier cache (each cached
verifier is represented by the certificate bytes it was constructed
from), the client-signatures map (none models a null pointer, the list
models the map contents seen through a transaction view), the
certificates map, and the request-storing flag. -/
structure Frontend where
  verifiers : List (Nat × Bytes)
  clientSigs : Option (List (Nat × SignedReq))
  certs : Option (List (Bytes × Nat))
  requestStoringDisabled : Bool
deriving DecidableEq

/-- valid_caller (frontend.h lines 131-143): a null certificate map yields
the INVALID_ID sentinel; a null caller buffer yields no caller; otherwise
the certificate bytes are looked up in the certs view. -/
def valid_caller (fe : Frontend) (caller : Option Bytes) : Option Nat :=
  match fe.certs with
  | none => some INVALID_ID
  | some cmap =>
    match caller with
    | none => none
    | some cb => alookup cmap cb

/-- unpack_json (frontend.h lines 108-129): a decode failure of the
external codec yields INVALID_REQUEST "Exception during unpack."; a
non-object decode yields INVALID_REQUEST "Non-object.". The codec
parameter models jsonrpc::unpack; none models a thrown exception. -/
def unpack_json (codec : Bytes → Pack → Option JVal) (input : Bytes)
    (pack : Pack) : Except Response JVal :=
  match codec input pack with
  | none => .error (.error 0 .INVALID_REQUEST "Exception during unpack.")
  | some rpc =>
    if jIsObj rpc then .ok rpc
    else .error (.error 0 .INVALID_REQUEST "Non-object.")

/-- Verifier-cache step of verify_client_signature (frontend.h lines
794-806): when the request is forwarded, verification is skipped and
counts as passed; otherwise a verifier is created from the caller
certificate if none is cached for the caller id (emplace keeps an
existing entry), and the signature is checked against the verifier now
in the cache. Returns the verification outcome and the updated state. -/
def verifierStep (verifyFn : Bytes → Bytes → Bytes → Bool) (fe : Frontend)
    (caller : Option Bytes) (caller_id : Nat) (sr : SignedReq)
    (is_forwarded : Bool) : Bool × Frontend :=
  if is_forwarded then (true, fe)
  else
    let fe1 :=
      match alookup fe.verifiers caller_id with
      | some _ => fe
      | none =>
        { fe with verifiers := fe.verifiers ++ [(caller_id, caller.getD [])] }
    (verifyFn ((alookup fe1.verifiers caller_id).getD []) sr.req sr.sig, fe1)

/-- verify_client_signature (frontend.h lines 779-816). verifyFn models
tls::Verifier::verify as a function of the key bytes the verifier was
constructed from, the signed content and the signature. Returns the
outcome, the updated frontend state (verifier cache and client-signatures
map) and the final value of the by-reference signed_request parameter
(sr0 on the null-map early return). -/
def verify_client_signature (verifyFn : Bytes → Bytes → Bytes → Bool)
    (mpPack : JVal → Bytes) (fe : Frontend) (caller : Option Bytes)
    (caller_id : Nat) (full_rpc : JVal) (is_forwarded : Bool)
    (sr0 : SignedReq) : Except String (Bool × Frontend × SignedReq) := do
  match fe.clientSigs with
  | none => .ok (false, fe, sr0)
  | some m =>
    let sr ← from_json mpPack full_rpc
    let (verified, fe1) := verifierStep verifyFn fe caller caller_id sr
      is_forwarded
    if verified then
      let sr := if fe.requestStoringDisabled then { sr with req := [] } else sr
      .ok (true, { fe1 with clientSigs := some (mapPut m caller_id sr) }, sr)
    else .ok (false, fe1, sr)

/-- Context fields of enclave::RPCContext used by process (the header is
not under src/): the caller certificate (none models a null CBuffer) and
the forwarded-context record (none models an absent ctx.fwd). -/
structure Ctx where
  callerCert : Option Bytes
  fwd : Option Unit

/-- Outcome of process: a packed reply (the response paired with the pack
encoding it is serialised with), or the empty return with
ctx.is_pending set. -/
inductive ProcOut where
  | reply (r : Response) (pack : Pack)
  | pending

/-- Tail of process after the signature branch (frontend.h lines
507-521): the jsonrpc id of the unsigned rpc is read as a size_t (a
non-numeric or absent id throws), the request is recorded in history
(external, no observable state here) and the empty pending reply is
returned. -/
def processTail (fe : Frontend) (unsigned_rpc : JVal) :
    Except String (ProcOut × Frontend) :=
  match jfind unsigned_rpc "id" with
  | some (.num _) => .ok (.pending, fe)
  | some _ => .error "unsigned_rpc at id: conversion to size_t"
  | none => .error "unsigned_rpc at id: key not found"

/-- process (frontend.h lines 456-522): pack detection, caller
validation, unpack, optional signed-envelope verification, then request
recording and the pending return. Exceptions escaping process (missing
req key, failing SignedReq conversion, non-numeric id) are Except
errors. Returns the outcome and the final frontend state. -/
def process (verifyFn : Bytes → Bytes → Bytes → Bool)
    (codec : Bytes → Pack → Option JVal) (mpPack : JVal → Bytes)
    (fe : Frontend) (ctx : Ctx) (input : Bytes) :
    Except String (ProcOut × Frontend) := do
  match detect_pack input with
  | none =>
    .ok (.reply (.error 0 .INVALID_REQUEST "Empty request.") Pack.Text, fe)
  | some pack =>
    match valid_caller fe ctx.callerCert with
    | none =>
      .ok (.reply
        (.error 0 .INVALID_CALLER_ID "No corresponding caller entry exists.")
        pack, fe)
    | some caller_id =>
      match unpack_json codec input pack with
      | .error eresp => .ok (.reply eresp pack, fe)
      | .ok rpc =>
        let srInit ← from_json mpPack rpc
        match jfind rpc "sig" with
        | some _ =>
          match jfind rpc "req" with
          | none => .error "rpc.at(req): key not found"
          | some req =>
            let (ok, fe1, _) ← verify_client_signature verifyFn mpPack fe
              ctx.callerCert caller_id rpc ctx.fwd.isSome srInit
            if ok then processTail fe1 req
            else
              match jfind req "id" with
              | some (.num innerId) =>
                .ok (.reply
                  (.error innerId .INVALID_CLIENT_SIGNATURE
                    "Failed to verify client signature.") pack, fe1)
              | some _ => .error "req.at(id): conversion to seq_no"
              | none => .error "req.at(id): key not found"
        | none => processTail fe rpc

/-- Observable interface of the consensus (kv::Replicator, node/consensus,
not under src/): leadership, the leader's node id, the current term and
the global commit index, as used by the frontend. -/
structure Raft where
  isLeader : Bool
  leaderId : Nat
  term : Int
  commitIdx : Int
deriving DecidableEq

/-- Node directory record (node/nodes.h, not under src/): the public host
and TLS port used for redirection. -/
structure NodeInfo where
  pubhost : String
  tlsport : String
deriving DecidableEq

/-- Observable store state used by the frontend (the kv store is not
under src/): the current version and the commit gap. -/
structure StoreModel where
  currentVersion : Int
  commitGap : Nat
deriving DecidableEq

/-- External collaborators of process_json: the consensus pointer (none
models nullptr, as after update_raft), the nodes table contents (none
models a null Nodes pointer), presence of the history object, and the
store. -/
structure Env where
  raft : Option Raft
  nodesMap : Option (List (Nat × NodeInfo))
  historyPresent : Bool
  store : StoreModel

/-- Observable transaction versions at the successful commit (Store::Tx
is not under src/): tx.commit_version() and tx.get_read_version(). -/
structure TxModel where
  commitVersion : Int
  readVersion : Int
deriving DecidableEq

/-- kv::NoVersion, the sentinel version (kv headers not under src/).
Modelled from the spec: a sentinel distinct from 0 and from every valid
version, which the spec treats as the absent case of the fallback chain;
valid versions are at least 1. -/
def NoVersion : Int := -1

/-- Read/write classification of a handler (frontend.h lines 29-34). -/
inductive ReadWrite where
  | Read
  | Write
  | MayWrite
deriving DecidableEq

/-- Forwardability of a handler (frontend.h lines 36-40). -/
inductive Forwardable where
  | CanForward
  | DoNotForward
deriving DecidableEq

/-- Handler registry entry (frontend.h lines 67-74). The function itself
and the schemas are irrelevant to routing; the function's behaviour is
supplied to process_json as the per-attempt outcome list. -/
structure Handler where
  rw : ReadWrite
  forwardable : Forwardable
deriving DecidableEq

/-- Handler selection (frontend.h lines 659-670): the named handler if
installed, else the default handler if set. -/
def selectHandler (handlers : List (String × Handler))
    (defaultH : Option Handler) (method : String) : Option Handler :=
  match alookup handlers method with
  | some h => some h
  | none => defaultH

/-- is_leader as computed at frontend.h line 675: a null consensus
pointer counts as leader. -/
def isLeaderB : Option Raft → Bool
  | none => true
  | some r => r.isLeader

/-- forward_or_redirect_json (frontend.h lines 145-178): forward (no
response) when a forwarder is configured, the handler may forward and the
request has not already been forwarded; otherwise redirect with
TX_NOT_LEADER, carrying the leader's pubhost:tlsport when both the nodes
table and the consensus exist and the leader's record is found, and the
leader-unknown message otherwise. -/
def forward_or_redirect_json (cmdForwarder : Bool) (ctxFwd : Option Unit)
    (seqNo : Int) (nodesMap : Option (List (Nat × NodeInfo)))
    (raft : Option Raft) (forwardable : Forwardable) : Option Response :=
  if cmdForwarder = true ∧ forwardable = .CanForward ∧ ctxFwd = none then
    none
  else
    some
      (match nodesMap, raft with
       | some nm, some r =>
         match alookup nm r.leaderId with
         | some info =>
           .error seqNo .TX_NOT_LEADER (info.pubhost ++ ":" ++ info.tlsport)
         | none =>
           .error seqNo .TX_NOT_LEADER "Not leader, leader unknown."
       | _, _ => .error seqNo .TX_NOT_LEADER "Not leader, leader unknown.")

/-- Outcome of one handler invocation (the handler function is external
behaviour registered by higher layers): a returned (ok, json) pair, or a
thrown RpcException, JsonParseError, or other exception. -/
inductive HandlerOutcome where
  | ret (ok : Bool) (j : JVal)
  | raisedRpc (errorId : Int) (msg : String)
  | raisedParse (pointer : String) (what : String)
  | raisedOther (what : String)

/-- Outcome of tx.commit() (kv::CommitSuccess, kv headers not under
src/). -/
inductive CommitOutcome where
  | OK
  | CONFLICT
  | NO_REPLICATE
deriving DecidableEq

/-- One iteration of the retry loop: the handler outcome and, when the
handler returned successfully, the commit outcome. -/
abbrev Attempt := HandlerOutcome × CommitOutcome

/-- Result of process_json: a response, the empty optional (forward, the
caller keeps the request pending), an escaped exception, or the run
outliving the supplied per-attempt outcomes (the source loop would keep
retrying). -/
inductive PJResult where
  | resp (r : Response)
  | noResponse
  | exn (msg : String)
  | outOfAttempts

/-- Commit annotation chain (frontend.h lines 718-722): the transaction's
commit version, falling back to its read version when 0, then to the
store's current version when still NoVersion. -/
def commitChain (tx : TxModel) (currentVersion : Int) : Int :=
  let cv := if tx.commitVersion = 0 then tx.readVersion else tx.commitVersion
  if cv = NoVersion then currentVersion else cv

/-- The retry loop of process_json (frontend.h lines 702-764), consuming
one Attempt per iteration. Returns the result and the number of
signatures emitted via history. -/
def execLoop (seqNo : Int) (env : Env) (sigMaxTx : Nat) (tx : TxModel) :
    List Attempt → PJResult × Nat
  | [] => (.outOfAttempts, 0)
  | (hout, cres) :: rest =>
    match hout with
    | .ret ok j =>
      if ok = false then (.resp (.errorBody seqNo j), 0)
      else
        match cres with
        | .OK =>
          let cv := commitChain tx env.store.currentVersion
          match env.raft with
          | none => (.resp (.success seqNo j cv none none), 0)
          | some r =>
            (.resp (.success seqNo j cv (some r.term) (some r.commitIdx)),
             if env.historyPresent = true ∧ r.isLeader = true ∧
                cv % (sigMaxTx : Int) = ((sigMaxTx / 2 : Nat) : Int)
             then 1 else 0)
        | .CONFLICT => execLoop seqNo env sigMaxTx tx rest
        | .NO_REPLICATE =>
          (.resp (.error seqNo .TX_FAILED_TO_REPLICATE
            "Transaction failed to replicate."), 0)
    | .raisedRpc errorId msg => (.resp (.error seqNo (.custom errorId) msg), 0)
    | .raisedParse pointer what =>
      (.resp (.error seqNo .PARSE_ERROR ("At " ++ pointer ++ ":\n\t" ++ what)), 0)
    | .raisedOther what => (.resp (.error seqNo .INTERNAL_ERROR what), 0)

/-- Params well-formedness check of frontend.h lines 647-654: reject a
params member that is neither an array nor an object. -/
def paramsBad (rpc : JVal) : Bool :=
  match jfind rpc "params" with
  | none => false
  | some (.arr _) => false
  | some (.obj _) => false
  | some _ => true

/-- Dispatch of process_json after method and seq_no extraction
(frontend.h lines 641-764): version check, params check, handler
selection, follower routing, then the retry loop. -/
def pjDispatch (env : Env) (handlers : List (String × Handler))
    (defaultH : Option Handler) (sigMaxTx : Nat) (cmdForwarder : Bool)
    (ctxFwd : Option Unit) (rpc : JVal) (tx : TxModel)
    (attempts : List Attempt) (method : String) (seqNo : Int) :
    PJResult × Nat :=
  match jfind rpc "jsonrpc" with
  | none => (.exn "rpc.at(jsonrpc): key not found", 0)
  | some ver =>
    if jvalIsStr ver "2.0" = false then
      (.resp (.error seqNo .INVALID_REQUEST "Wrong JSON-RPC version."), 0)
    else if paramsBad rpc then
      (.resp (.error seqNo .INVALID_REQUEST
        "If present, parameters must be an array or object"), 0)
    else
      match selectHandler handlers defaultH method with
      | none => (.resp (.error seqNo .METHOD_NOT_FOUND method), 0)
      | some h =>
        if isLeaderB env.raft = false then
          match h.rw with
          | .Read => execLoop seqNo env sigMaxTx tx attempts
          | .Write =>
            match forward_or_redirect_json cmdForwarder ctxFwd seqNo
              env.nodesMap env.raft h.forwardable with
            | none => (.noResponse, 0)
            | some r => (.resp r, 0)
          | .MayWrite =>
            match jfind rpc "readonly" with
            | none => execLoop seqNo env sigMaxTx tx attempts
            | some (.jbool true) => execLoop seqNo env sigMaxTx tx attempts
            | some (.jbool false) =>
              match forward_or_redirect_json cmdForwarder ctxFwd seqNo
                env.nodesMap env.raft h.forwardable with
              | none => (.noResponse, 0)
              | some r => (.resp r, 0)
            | some _ => (.exn "rpc.value(readonly): type error", 0)
        else execLoop seqNo env sigMaxTx tx attempts

/-- process_json (frontend.h lines 630-765): method extraction, seq_no
assignment from the id member (read into an integer), then pjDispatch.
The handler function's behaviour and the commit outcomes of the run are
supplied as the attempts list; tx_count increment and metrics are
external side effects with no bearing on the result. -/
def process_json (env : Env) (handlers : List (String × Handler))
    (defaultH : Option Handler) (sigMaxTx : Nat) (cmdForwarder : Bool)
    (ctxFwd : Option Unit) (rpc : JVal) (tx : TxModel)
    (attempts : List Attempt) : PJResult × Nat :=
  match jfind rpc "method" with
  | none => (.exn "rpc.at(method): key not found", 0)
  | some (.str method) =>
    match jfind rpc "id" with
    | none => (.exn "rpc.at(id): key not found", 0)
    | some (.num seqNo) =>
      pjDispatch env handlers defaultH sigMaxTx cmdForwarder ctxFwd rpc tx
        attempts method seqNo
    | some _ => (.exn "rpc.at(id): conversion to seq_no", 0)
  | some _ => (.exn "rpc.at(method): conversion to string", 0)

/-- Frontend timer state mutated by tick: the signature countdown and the
transaction counter. -/
structure TickState where
  msToSig : Int
  txCount : Nat
deriving DecidableEq

/-- tick (frontend.h lines 825-844): the tx counter is reset (after the
external metrics update); on a leader, an elapsed time below the
countdown merely decrements it, otherwise the countdown is reset to
sig_max_ms and a signature is emitted via history when the history
object exists and the store's commit gap is positive. Returns the new
timer state and the number of signatures emitted. -/
def tick (raft : Option Raft) (historyPresent : Bool) (commitGap : Nat)
    (sigMaxMs : Int) (st : TickState) (elapsed : Int) : TickState × Nat :=
  let st0 : TickState := { st with txCount := 0 }
  match raft with
  | none => (st0, 0)
  | some r =>
    if r.isLeader = true then
      if elapsed < st.msToSig then
        ({ st0 with msToSig := st.msToSig - elapsed }, 0)
      else
        ({ st0 with msToSig := sigMaxMs },
         if historyPresent = true ∧ 0 < commitGap then 1 else 0)
    else (st0, 0)

/-- Concrete leader consensus state used by witnesses. -/
def rLeader : Raft := { isLeader := true, leaderId := 0, term := 5, commitIdx := 41 }

/-- Concrete follower consensus state used by witnesses, with leader node
id 2. -/
def rFollower : Raft := { isLeader := false, leaderId := 2, term := 5, commitIdx := 41 }

/-- Concrete environment with no consensus, used by witnesses. -/
def envNoRaft : Env :=
  { raft := none, nodesMap := none, historyPresent := false,
    store := { currentVersion := 0, commitGap := 0 } }

/-- Concrete frontend with request storing disabled, used by the C5
witness. -/
def feC5 : Frontend :=
  { verifiers := [], clientSigs := some [], certs := none,
    requestStoringDisabled := true }

/-- The frontend feC5 after a successful verified store for caller 1. -/
def feC5out : Frontend :=
  { verifiers := [], clientSigs := some [(1, { })], certs := none,
    requestStoringDisabled := true }

/-- Concrete inner request of a signed envelope, used by witnesses. -/
def rpcC4inner : JVal :=
  .obj [("jsonrpc", .str "2.0"), ("id", .num 4), ("method", .str "m")]

/-- Concrete signed envelope, used by witnesses. -/
def rpcC4 : JVal := .obj [("sig", .arr [.num 9]), ("req", rpcC4inner)]

/-- Concrete frontend whose certs map resolves certificate [5] to caller
7, used by the C4 witness. -/
def feC4 : Frontend :=
  { verifiers := [], clientSigs := some [], certs := some [([5], 7)],
    requestStoringDisabled := false }

/-- The frontend feC4 after the verifier cache gained caller 7. -/
def feC4out : Frontend :=
  { verifiers := [(7, [5])], clientSigs := some [], certs := some [([5], 7)],
    requestStoringDisabled := false }

/-- The SignedReq parsed from rpcC4 with the packing stub used by
witnesses. -/
def srC4 : SignedReq := { sig := [9], req := [1], raw_req := [], md := 0 }

/-- Concrete request context with certificate [5] and no forwarded
record, used by witnesses. -/
def ctxC4 : Ctx := { callerCert := some [5], fwd := none }

/-- Concrete frontend with a null client-signatures map, used by the C10
witness. -/
def feC10 : Frontend :=
  { verifiers := [], clientSigs := none, certs := some [([5], 7)],
    requestStoringDisabled := false }

/-- Helper: binding a successful Except computation runs the
continuation. -/
theorem exceptBindOk {ε α β : Type} (a : α) (f : α → Except ε β) :
    ((Except.ok a : Except ε α) >>= f) = f a := rfl

/-- Helper: binding a failed Except computation propagates the error. -/
theorem exceptBindError {ε α β : Type} (e : ε) (f : α → Except ε β) :
    ((Except.error e : Except ε α) >>= f) = Except.error e := rfl

/-- Helper: the verifier-cache step never touches the client-signatures
map or the storing flag. -/
theorem verifierStepClientSigs (verifyFn : Bytes → Bytes → Bytes → Bool)
    (fe : Frontend) (caller : Option Bytes) (caller_id : Nat)
    (sr : SignedReq) (is_forwarded : Bool) (b : Bool) (fe1 : Frontend)
    (h : verifierStep verifyFn fe caller caller_id sr is_forwarded =
      (b, fe1)) :
    fe1.clientSigs = fe.clientSigs := by
  by_cases hf : is_forwarded = true
  · simp only [verifierStep, hf, if_true] at h
    rw [Prod.mk.injEq] at h
    rw [← h.2]
  · simp only [verifierStep, hf, if_false, Bool.false_eq_true] at h
    cases hl : alookup fe.verifiers caller_id <;>
      simp only [hl] at h <;> rw [Prod.mk.injEq] at h <;> rw [← h.2]

/-- Claim C7: detect_pack returns Text exactly for non-empty input whose
first byte is the opening brace (0x7B = 123), MsgPack for every other
non-empty input, and none for empty input; on empty input, process
returns an INVALID_REQUEST error "Empty request." with seq_no 0, packed
as text JSON, leaving the frontend state unchanged. -/
theorem c7_detect_pack_empty_request :
    (∀ (b : Nat) (rest : Bytes),
      detect_pack (b :: rest) =
        some (if b = 123 then Pack.Text else Pack.MsgPack)) ∧
    (∀ input : Bytes, detect_pack input = none ↔ input = []) ∧
    (∀ input : Bytes,
      detect_pack input = some Pack.Text ↔ input.head? = some 123) ∧
    (∀ (verifyFn : Bytes → Bytes → Bytes → Bool)
      (codec : Bytes → Pack → Option JVal) (mpPack : JVal → Bytes)
      (fe : Frontend) (ctx : Ctx),
      process verifyFn codec mpPack fe ctx [] =
        .ok (.reply (.error 0 .INVALID_REQUEST "Empty request.") Pack.Text,
          fe)) := by
  refine ⟨?_, ?_, ?_, ?_⟩
  · intro b rest
    by_cases hb : b = 123 <;> simp [detect_pack, hb]
  · intro input
    cases input with
    | nil => simp [detect_pack]
    | cons b rest =>
      simp only [detect_pack]
      constructor
      · intro h
        by_cases hb : b = 123 <;> simp [hb] at h
      · intro h
        exact absurd h (by simp)
  · intro input
    cases input with
    | nil => simp [detect_pack]
    | cons b rest =>
      simp only [detect_pack, List.head?]
      by_cases hb : b = 123 <;> simp [hb]
  · intro verifyFn codec mpPack fe ctx
    rfl

/-- Claim C8: a request whose jsonrpc member differs from the string
"2.0" makes process_json return an INVALID_REQUEST error whose seq_no is
the request's id, for every handler registry and every handler
behaviour (no handler is invoked). -/
theorem c8_wrong_version (env : Env) (handlers : List (String × Handler))
    (defaultH : Option Handler) (sigMaxTx : Nat) (cmdForwarder : Bool)
    (ctxFwd : Option Unit) (rpc : JVal) (tx : TxModel)
    (attempts : List Attempt) (method : String) (seqNo : Int) (ver : JVal)
    (hm : jfind rpc "method" = some (.str method))
    (hid : jfind rpc "id" = some (.num seqNo))
    (hv : jfind rpc "jsonrpc" = some ver)
    (hver : jvalIsStr ver "2.0" = false) :
    process_json env handlers defaultH sigMaxTx cmdForwarder ctxFwd rpc tx
        attempts =
      (.resp (.error seqNo .INVALID_REQUEST "Wrong JSON-RPC version."), 0) := by
  simp [process_json, hm, hid, pjDispatch, hv, hver]

/-- Witness for C8: spec scenario S2, id 3 and jsonrpc "1.0" yield
INVALID_REQUEST with seq_no 3. -/
theorem c8_wrong_version_witness :
    process_json envNoRaft [] none 1000 false none
        (.obj [("jsonrpc", .str "1.0"), ("id", .num 3), ("method", .str "m")])
        { commitVersion := 0, readVersion := 0 } [] =
      (.resp (.error 3 .INVALID_REQUEST "Wrong JSON-RPC version."), 0) :=
  c8_wrong_version _ _ _ _ _ _ _ _ _ "m" 3 (.str "1.0") rfl rfl rfl rfl

/-- Claim C6: on a leader with a history object, tick decrements the
signature countdown by the elapsed time; when the countdown is reached
or passed it resets the countdown to sig_max_ms and emits a signature
exactly when the commit gap is positive; with sig_max_ms 1000, ticking
600 then 500 with a positive commit gap emits exactly one signature. -/
theorem c6_tick_signature (r : Raft) (st : TickState)
    (sigMaxMs elapsed : Int) (gap : Nat)
    (hl : r.isLeader = true) :
    (elapsed < st.msToSig →
      tick (some r) true gap sigMaxMs st elapsed =
        ({ msToSig := st.msToSig - elapsed, txCount := 0 }, 0)) ∧
    (st.msToSig ≤ elapsed →
      tick (some r) true gap sigMaxMs st elapsed =
        ({ msToSig := sigMaxMs, txCount := 0 },
         if 0 < gap then 1 else 0)) ∧
    (0 < gap →
      (tick (some r) true gap 1000 { msToSig := 1000, txCount := st.txCount }
          600).2 +
      (tick (some r) true gap 1000
          (tick (some r) true gap 1000
            { msToSig := 1000, txCount := st.txCount } 600).1 500).2 = 1) := by
  refine ⟨?_, ?_, ?_⟩
  · intro h
    simp [tick, hl, h]
  · intro h
    have h2 : ¬ elapsed < st.msToSig := not_lt.mpr h
    simp [tick, hl, h2]
  · intro hg
    norm_num [tick, hl, hg]

/-- Witness for C6: spec scenario S8 at a concrete leader state. -/
theorem c6_tick_signature_witness :
    ((600 : Int) < (1000 : Int) →
      tick (some rLeader) true 1 1000 { msToSig := 1000, txCount := 7 } 600 =
        ({ msToSig := 1000 - 600, txCount := 0 }, 0)) ∧
    ((1000 : Int) ≤ (600 : Int) →
      tick (some rLeader) true 1 1000 { msToSig := 1000, txCount := 7 } 600 =
        ({ msToSig := 1000, txCount := 0 }, if 0 < 1 then 1 else 0)) ∧
    (0 < 1 →
      (tick (some rLeader) true 1 1000
          { msToSig := 1000, txCount := 7 } 600).2 +
      (tick (some rLeader) true 1 1000
          (tick (some rLeader) true 1 1000
            { msToSig := 1000, txCount := 7 } 600).1 500).2 = 1) :=
  c6_tick_signature rLeader { msToSig := 1000, txCount := 7 } 1000 600 1 rfl

/-- Claim C3 evaluated at its failing input: a SignedReq with non-empty
sig and empty req does not survive the JSON round trip, for every choice
of msgpack codec — from_json only assigns sig when a req member is
present (clientsignatures.h line 58 probes "req"), so the decoded record
has an empty sig. -/
theorem c3_roundtrip_loses_sig :
    ∀ (mpUnpack : Bytes → JVal) (mpPack : JVal → Bytes),
      from_json mpPack
          (to_json mpUnpack { sig := [1], req := [], raw_req := [], md := 0 }) =
        .ok ({ } : SignedReq) ∧
      ({ } : SignedReq) ≠
        ({ sig := [1], req := [], raw_req := [], md := 0 } : SignedReq) := by
  intro mpUnpack mpPack
  exact ⟨rfl, by decide⟩

/-- Claim C1: on a follower (non-null consensus, not leader), a call
reaching process_json whose selected handler is a Write handler returns
no response exactly when a forwarder is configured, the handler may
forward and the request has not been forwarded yet; otherwise it returns
a TX_NOT_LEADER error whose data is the leader record's pubhost:tlsport
when that record exists and the leader-unknown message when it does
not. -/
theorem c1_follower_write_routing (env : Env)
    (handlers : List (String × Handler)) (defaultH : Option Handler)
    (sigMaxTx : Nat) (cmdForwarder : Bool) (ctxFwd : Option Unit)
    (rpc : JVal) (tx : TxModel) (attempts : List Attempt) (r : Raft)
    (h : Handler) (method : String) (seqNo : Int) (ver : JVal)
    (hraft : env.raft = some r) (hfol : r.isLeader = false)
    (hm : jfind rpc "method" = some (.str method))
    (hid : jfind rpc "id" = some (.num seqNo))
    (hv : jfind rpc "jsonrpc" = some ver)
    (hver : jvalIsStr ver "2.0" = true)
    (hp : paramsBad rpc = false)
    (hh : selectHandler handlers defaultH method = some h)
    (hrw : h.rw = .Write) :
    process_json env handlers defaultH sigMaxTx cmdForwarder ctxFwd rpc tx
        attempts =
      (if cmdForwarder = true ∧ h.forwardable = .CanForward ∧ ctxFwd = none
       then (PJResult.noResponse, 0)
       else
         (PJResult.resp (.error seqNo .TX_NOT_LEADER
           (match env.nodesMap with
            | some nm =>
              match alookup nm r.leaderId with
              | some info => info.pubhost ++ ":" ++ info.tlsport
              | none => "Not leader, leader unknown."
            | none => "Not leader, leader unknown.")), 0)) := by
  simp only [process_json, hm, hid, pjDispatch, hv, hver]
  simp only [Bool.true_eq_false, if_false, hp, hh, isLeaderB, hraft, hfol,
    if_true, hrw]
  by_cases hc : cmdForwarder = true ∧ h.forwardable = .CanForward ∧
      ctxFwd = none
  · simp [forward_or_redirect_json, hc]
  · simp only [forward_or_redirect_json, hc, if_neg, if_false]
    cases hn : env.nodesMap with
    | none => simp [hc]
    | some nm =>
      cases hi : alookup nm r.leaderId with
      | none => simp [hc, hi]
      | some info => simp [hc, hi]

/-- Witness for C1: spec scenario S4, a Write call on a follower with no
forwarder and leader record ("10.0.0.2", "8443") redirects with data
"10.0.0.2:8443". -/
theorem c1_follower_write_routing_witness :
    process_json
        { raft := some rFollower,
          nodesMap := some [(2, { pubhost := "10.0.0.2", tlsport := "8443" })],
          historyPresent := false,
          store := { currentVersion := 0, commitGap := 0 } }
        [("MK_SIGN", { rw := .Write, forwardable := .CanForward })] none 1000
        false none
        (.obj [("jsonrpc", .str "2.0"), ("id", .num 1),
          ("method", .str "MK_SIGN")])
        { commitVersion := 0, readVersion := 0 } [] =
      (PJResult.resp (.error 1 .TX_NOT_LEADER "10.0.0.2:8443"), 0) := by
  have := c1_follower_write_routing
    { raft := some rFollower,
      nodesMap := some [(2, { pubhost := "10.0.0.2", tlsport := "8443" })],
      historyPresent := false,
      store := { currentVersion := 0, commitGap := 0 } }
    [("MK_SIGN", { rw := .Write, forwardable := .CanForward })] none 1000
    false none
    (.obj [("jsonrpc", .str "2.0"), ("id", .num 1),
      ("method", .str "MK_SIGN")])
    { commitVersion := 0, readVersion := 0 } [] rFollower
    { rw := .Write, forwardable := .CanForward } "MK_SIGN" 1 (.str "2.0")
    rfl rfl rfl rfl rfl rfl rfl rfl rfl
  simpa using this

/-- Claim C9: once the verifier cache holds an entry for a caller id, a
non-forwarded verify_client_signature call ignores its certificate
argument entirely: two calls differing only in the certificate produce
identical outcomes and identical final states. -/
theorem c9_cached_verifier_ignores_cert
    (verifyFn : Bytes → Bytes → Bytes → Bool) (mpPack : JVal → Bytes)
    (fe : Frontend) (caller_id : Nat) (full_rpc : JVal) (sr0 : SignedReq)
    (k : Bytes)
    (hcache : alookup fe.verifiers caller_id = some k) :
    ∀ c1 c2 : Option Bytes,
      verify_client_signature verifyFn mpPack fe c1 caller_id full_rpc false
          sr0 =
      verify_client_signature verifyFn mpPack fe c2 caller_id full_rpc false
          sr0 := by
  intro c1 c2
  cases hcs : fe.clientSigs with
  | none => simp [verify_client_signature, hcs]
  | some m => simp [verify_client_signature, verifierStep, hcs, hcache]

/-- Witness for C9: with caller id 1 cached (verifier key [9]), the
certificates [1] and [2] give the same outcome. -/
theorem c9_cached_verifier_ignores_cert_witness :
    verify_client_signature (fun _ _ _ => false) (fun _ => [])
        { verifiers := [(1, [9])], clientSigs := some [], certs := none,
          requestStoringDisabled := false }
        (some [1]) 1 (.obj []) false { } =
      verify_client_signature (fun _ _ _ => false) (fun _ => [])
        { verifiers := [(1, [9])], clientSigs := some [], certs := none,
          requestStoringDisabled := false }
        (some [2]) 1 (.obj []) false { } :=
  c9_cached_verifier_ignores_cert (fun _ _ _ => false) (fun _ => [])
    { verifiers := [(1, [9])], clientSigs := some [], certs := none,
      requestStoringDisabled := false }
    1 (.obj []) { } [9] rfl (some [1]) (some [2])

/-- Counterexample for C5: a forwarded call on a request without a req
member succeeds and stores an entry whose req field is empty although
request storing is enabled, so "req cleared iff storing disabled" fails
in the only-if direction. -/
theorem c5_cleared_iff_counterexample :
    verify_client_signature (fun _ _ _ => true) (fun _ => [])
        { verifiers := [], clientSigs := some [], certs := none,
          requestStoringDisabled := false }
        none 1 (.obj []) true { } =
      .ok (true,
        { verifiers := [], clientSigs := some [(1, { })], certs := none,
          requestStoringDisabled := false },
        ({ } : SignedReq)) ∧
    ¬ ((({ } : SignedReq).req = []) ↔ (false = true)) := by
  exact ⟨rfl, by decide⟩

/-- Claim C5 (amended): whenever verify_client_signature returns true it
has written the final signed_request into the ClientSignatures map under
the caller id; the stored entry's req field is cleared when request
storing is disabled, and otherwise equals the req field parsed from the
request (which is empty exactly when the request carries no req
member). -/
theorem c5_signature_store_policy (verifyFn : Bytes → Bytes → Bytes → Bool)
    (mpPack : JVal → Bytes) (fe : Frontend) (caller : Option Bytes)
    (caller_id : Nat) (full_rpc : JVal) (is_forwarded : Bool)
    (sr0 : SignedReq) (m : List (Nat × SignedReq)) (fe2 : Frontend)
    (sr2 srP : SignedReq)
    (hcs : fe.clientSigs = some m)
    (hparse : from_json mpPack full_rpc = .ok srP)
    (hres : verify_client_signature verifyFn mpPack fe caller caller_id
        full_rpc is_forwarded sr0 = .ok (true, fe2, sr2)) :
    fe2.clientSigs = some (mapPut m caller_id sr2) ∧
    (fe.requestStoringDisabled = true → sr2.req = []) ∧
    (fe.requestStoringDisabled = false → sr2.req = srP.req) := by
  rcases hvs : verifierStep verifyFn fe caller caller_id srP is_forwarded
    with ⟨b, fe1⟩
  simp only [verify_client_signature, hcs, hparse, exceptBindOk, hvs] at hres
  cases b with
  | false => simp at hres
  | true =>
    simp only [if_true] at hres
    rw [Except.ok.injEq, Prod.mk.injEq, Prod.mk.injEq] at hres
    obtain ⟨-, hfe, hsr⟩ := hres
    subst hfe
    subst hsr
    refine ⟨rfl, ?_, ?_⟩
    · intro hd
      simp [hd]
    · intro hd
      simp [hd]

/-- Witness for C5 (amended theorem): storing disabled, forwarded call on
an empty request object. -/
theorem c5_signature_store_policy_witness :
    feC5out.clientSigs = some (mapPut [] 1 { }) ∧
    (feC5.requestStoringDisabled = true → ({ } : SignedReq).req = []) ∧
    (feC5.requestStoringDisabled = false →
      ({ } : SignedReq).req = ({ } : SignedReq).req) :=
  c5_signature_store_policy (fun _ _ _ => true) (fun _ => []) feC5 none 1
    (.obj []) true { } [] feC5out { } { } rfl rfl rfl

/-- Helper: a verify_client_signature call that returns false leaves the
client-signatures map untouched (the put happens only on the success
path; a failed call may still extend the verifier cache). -/
theorem verifyFalseLeavesClientSigs (verifyFn : Bytes → Bytes → Bytes → Bool)
    (mpPack : JVal → Bytes) (fe : Frontend) (caller : Option Bytes)
    (caller_id : Nat) (full_rpc : JVal) (is_forwarded : Bool)
    (sr0 : SignedReq) (fe2 : Frontend) (sr2 : SignedReq)
    (hres : verify_client_signature verifyFn mpPack fe caller caller_id
        full_rpc is_forwarded sr0 = .ok (false, fe2, sr2)) :
    fe2.clientSigs = fe.clientSigs := by
  cases hcs : fe.clientSigs with
  | none =>
    simp only [verify_client_signature, hcs] at hres
    rw [Except.ok.injEq, Prod.mk.injEq, Prod.mk.injEq] at hres
    obtain ⟨-, hfe, -⟩ := hres
    rw [← hfe]
    exact hcs
  | some m =>
    cases hp : from_json mpPack full_rpc with
    | error e =>
      simp [verify_client_signature, hcs, hp, exceptBindError] at hres
    | ok srP =>
      rcases hvs : verifierStep verifyFn fe caller caller_id srP is_forwarded
        with ⟨b, fe1⟩
      simp only [verify_client_signature, hcs, hp, exceptBindOk, hvs] at hres
      cases b with
      | true => simp at hres
      | false =>
        simp only [Bool.false_eq_true, if_false] at hres
        rw [Except.ok.injEq, Prod.mk.injEq, Prod.mk.injEq] at hres
        obtain ⟨-, hfe, -⟩ := hres
        rw [← hfe]
        exact (verifierStepClientSigs verifyFn fe caller caller_id srP
          is_forwarded false fe1 hvs).trans hcs

/-- Claim C4: a signed envelope whose signature fails verification makes
process return an INVALID_CLIENT_SIGNATURE error carrying the inner
request's id, and the ClientSignatures map is unchanged on that path. -/
theorem c4_invalid_signature_response (verifyFn : Bytes → Bytes → Bytes → Bool)
    (codec : Bytes → Pack → Option JVal) (mpPack : JVal → Bytes)
    (fe : Frontend) (ctx : Ctx) (input : Bytes) (pack : Pack) (cid : Nat)
    (rpc : JVal) (sr0 : SignedReq) (sv reqv : JVal) (innerId : Int)
    (fe2 : Frontend) (sr2 : SignedReq)
    (hpack : detect_pack input = some pack)
    (hcaller : valid_caller fe ctx.callerCert = some cid)
    (hunpack : codec input pack = some rpc)
    (hobj : jIsObj rpc = true)
    (hsr : from_json mpPack rpc = .ok sr0)
    (hsig : jfind rpc "sig" = some sv)
    (hreq : jfind rpc "req" = some reqv)
    (hver : verify_client_signature verifyFn mpPack fe ctx.callerCert cid rpc
        ctx.fwd.isSome sr0 = .ok (false, fe2, sr2))
    (hinner : jfind reqv "id" = some (.num innerId)) :
    process verifyFn codec mpPack fe ctx input =
      .ok (.reply (.error innerId .INVALID_CLIENT_SIGNATURE
        "Failed to verify client signature.") pack, fe2) ∧
    fe2.clientSigs = fe.clientSigs := by
  constructor
  · simp [process, hpack, hcaller, unpack_json, hunpack, hobj, hsr, hsig,
      hreq, exceptBindOk, hver, hinner]
  · exact verifyFalseLeavesClientSigs verifyFn mpPack fe ctx.callerCert cid
      rpc ctx.fwd.isSome sr0 fe2 sr2 hver

/-- Witness for C4: spec scenario S7, a signed envelope with inner id 4
whose signature fails against a rejecting verifier yields the
INVALID_CLIENT_SIGNATURE reply with seq_no 4, and the client-signatures
map is untouched (only the verifier cache grew). -/
theorem c4_invalid_signature_response_witness :
    process (fun _ _ _ => false) (fun _ _ => some rpcC4) (fun _ => [1]) feC4
        ctxC4 [123] =
      .ok (.reply (.error 4 .INVALID_CLIENT_SIGNATURE
        "Failed to verify client signature.") Pack.Text, feC4out) ∧
    feC4out.clientSigs = feC4.clientSigs :=
  c4_invalid_signature_response (fun _ _ _ => false) (fun _ _ => some rpcC4)
    (fun _ => [1]) feC4 ctxC4 [123] Pack.Text 7 rpcC4 srC4 (.arr [.num 9])
    rpcC4inner 4 feC4out srC4 rfl rfl rfl rfl rfl rfl rfl rfl rfl

/-- Claim C10: with a null client-signatures map, verify_client_signature
returns false for every input without touching the state, so process
answers every signed envelope with INVALID_CLIENT_SIGNATURE even under a
verifier that accepts everything. -/
theorem c10_null_map_rejects_all (verifyFn : Bytes → Bytes → Bytes → Bool)
    (codec : Bytes → Pack → Option JVal) (mpPack : JVal → Bytes)
    (fe : Frontend) (ctx : Ctx) (input : Bytes) (pack : Pack) (cid : Nat)
    (rpc : JVal) (sr0 : SignedReq) (sv reqv : JVal) (innerId : Int)
    (hnull : fe.clientSigs = none)
    (hpack : detect_pack input = some pack)
    (hcaller : valid_caller fe ctx.callerCert = some cid)
    (hunpack : codec input pack = some rpc)
    (hobj : jIsObj rpc = true)
    (hsr : from_json mpPack rpc = .ok sr0)
    (hsig : jfind rpc "sig" = some sv)
    (hreq : jfind rpc "req" = some reqv)
    (hinner : jfind reqv "id" = some (.num innerId)) :
    (∀ (caller : Option Bytes) (cidx : Nat) (rpcx : JVal) (fwd : Bool)
      (s : SignedReq),
      verify_client_signature verifyFn mpPack fe caller cidx rpcx fwd s =
        .ok (false, fe, s)) ∧
    process verifyFn codec mpPack fe ctx input =
      .ok (.reply (.error innerId .INVALID_CLIENT_SIGNATURE
        "Failed to verify client signature.") pack, fe) := by
  constructor
  · intro caller cidx rpcx fwd s
    simp [verify_client_signature, hnull]
  · simp [process, hpack, hcaller, unpack_json, hunpack, hobj, hsr, hsig,
      hreq, exceptBindOk, verify_client_signature, hnull, hinner]

/-- Witness for C10: the same signed envelope under a verifier that
accepts everything is still answered with INVALID_CLIENT_SIGNATURE when
the client-signatures map is null. -/
theorem c10_null_map_rejects_all_witness :
    process (fun _ _ _ => true) (fun _ _ => some rpcC4) (fun _ => [1]) feC10
        ctxC4 [123] =
      .ok (.reply (.error 4 .INVALID_CLIENT_SIGNATURE
        "Failed to verify client signature.") Pack.Text, feC10) :=
  (c10_null_map_rejects_all (fun _ _ _ => true) (fun _ _ => some rpcC4)
    (fun _ => [1]) feC10 ctxC4 [123] Pack.Text 7 rpcC4 srC4 (.arr [.num 9])
    rpcC4inner 4 rfl rfl rfl rfl rfl rfl rfl rfl rfl).2

/-- Helper: the retry loop passes over attempts in which the handler
returned success and the commit conflicted, re-invoking the handler. -/
theorem execLoopSkipsConflicts (seqNo : Int) (env : Env) (sigMaxTx : Nat)
    (tx : TxModel) :
    ∀ (pre rest : List Attempt),
      (∀ a ∈ pre, ∃ j, a = (HandlerOutcome.ret true j, CommitOutcome.CONFLICT)) →
      execLoop seqNo env sigMaxTx tx (pre ++ rest) =
        execLoop seqNo env sigMaxTx tx rest := by
  intro pre
  induction pre with
  | nil => intro rest _; rfl
  | cons a pre ih =>
    intro rest hmem
    obtain ⟨j, rfl⟩ := hmem a (by simp)
    have hrec := ih rest (fun b hb => hmem b (by simp [hb]))
    simpa [execLoop] using hrec

/-- Claim C2: a run of process_json in which the handler returns success
and the commit returns OK produces a success response annotated with a
commit value equal to the transaction's commit version, falling back to
the read version and then to the store's current version, in that order;
this commit value is at least 1 (store versions being at least 1 or the
NoVersion sentinel); and the response carries term and global_commit from
the consensus exactly when the consensus pointer is non-null. -/
theorem c2_commit_ok_annotation (env : Env)
    (handlers : List (String × Handler)) (defaultH : Option Handler)
    (sigMaxTx : Nat) (cmdForwarder : Bool) (ctxFwd : Option Unit)
    (rpc : JVal) (tx : TxModel) (h : Handler) (method : String)
    (seqNo : Int) (ver : JVal) (payload : JVal) (pre : List Attempt)
    (hm : jfind rpc "method" = some (.str method))
    (hid : jfind rpc "id" = some (.num seqNo))
    (hv : jfind rpc "jsonrpc" = some ver)
    (hver : jvalIsStr ver "2.0" = true)
    (hp : paramsBad rpc = false)
    (hh : selectHandler handlers defaultH method = some h)
    (hroute : h.rw = .Read ∨ isLeaderB env.raft = true ∨
      (h.rw = .MayWrite ∧ jfind rpc "readonly" = none) ∨
      (h.rw = .MayWrite ∧ jfind rpc "readonly" = some (.jbool true)))
    (hpre : ∀ a ∈ pre,
      ∃ j, a = (HandlerOutcome.ret true j, CommitOutcome.CONFLICT))
    (hcv : tx.commitVersion = 0 ∨ 1 ≤ tx.commitVersion)
    (hrv : tx.readVersion = NoVersion ∨ 1 ≤ tx.readVersion)
    (hcur : 1 ≤ env.store.currentVersion) :
    (∃ emitted,
      process_json env handlers defaultH sigMaxTx cmdForwarder ctxFwd rpc tx
          (pre ++ [(HandlerOutcome.ret true payload, CommitOutcome.OK)]) =
        (PJResult.resp (.success seqNo payload
          (commitChain tx env.store.currentVersion)
          (env.raft.map Raft.term) (env.raft.map Raft.commitIdx)), emitted)) ∧
    1 ≤ commitChain tx env.store.currentVersion ∧
    (tx.commitVersion ≠ 0 →
      commitChain tx env.store.currentVersion = tx.commitVersion) ∧
    (tx.commitVersion = 0 ∧ tx.readVersion ≠ NoVersion →
      commitChain tx env.store.currentVersion = tx.readVersion) ∧
    (tx.commitVersion = 0 ∧ tx.readVersion = NoVersion →
      commitChain tx env.store.currentVersion =
        env.store.currentVersion) := by
  have hloop : execLoop seqNo env sigMaxTx tx
      (pre ++ [(HandlerOutcome.ret true payload, CommitOutcome.OK)]) =
      execLoop seqNo env sigMaxTx tx
        [(HandlerOutcome.ret true payload, CommitOutcome.OK)] :=
    execLoopSkipsConflicts seqNo env sigMaxTx tx pre _ hpre
  have hexec : ∃ emitted,
      execLoop seqNo env sigMaxTx tx
          [(HandlerOutcome.ret true payload, CommitOutcome.OK)] =
        (PJResult.resp (.success seqNo payload
          (commitChain tx env.store.currentVersion)
          (env.raft.map Raft.term) (env.raft.map Raft.commitIdx)),
          emitted) := by
    cases hr : env.raft with
    | none => exact ⟨0, by simp [execLoop, hr]⟩
    | some r =>
      refine ⟨if env.historyPresent = true ∧ r.isLeader = true ∧
        commitChain tx env.store.currentVersion % (sigMaxTx : Int) =
          ((sigMaxTx / 2 : Nat) : Int) then 1 else 0, ?_⟩
      simp [execLoop, hr]
  have hchain : 1 ≤ commitChain tx env.store.currentVersion ∧
      (tx.commitVersion ≠ 0 →
        commitChain tx env.store.currentVersion = tx.commitVersion) ∧
      (tx.commitVersion = 0 ∧ tx.readVersion ≠ NoVersion →
        commitChain tx env.store.currentVersion = tx.readVersion) ∧
      (tx.commitVersion = 0 ∧ tx.readVersion = NoVersion →
        commitChain tx env.store.currentVersion =
          env.store.currentVersion) := by
    unfold commitChain NoVersion at *
    rcases hcv with hcv | hcv <;> rcases hrv with hrv | hrv <;>
      refine ⟨?_, ?_, ?_, ?_⟩ <;>
      simp [hcv, hrv] <;> omega
  refine ⟨?_, hchain⟩
  obtain ⟨emitted, hemit⟩ := hexec
  refine ⟨emitted, ?_⟩
  have hred : process_json env handlers defaultH sigMaxTx cmdForwarder ctxFwd
      rpc tx (pre ++ [(HandlerOutcome.ret true payload, CommitOutcome.OK)]) =
      execLoop seqNo env sigMaxTx tx
        (pre ++ [(HandlerOutcome.ret true payload, CommitOutcome.OK)]) := by
    rcases hroute with hro | hro | ⟨hro, hro2⟩ | ⟨hro, hro2⟩
    · by_cases hl : isLeaderB env.raft = false
      · simp [process_json, hm, hid, pjDispatch, hv, hver, hp, hh, hl, hro]
      · simp [process_json, hm, hid, pjDispatch, hv, hver, hp, hh, hl]
    · simp [process_json, hm, hid, pjDispatch, hv, hver, hp, hh, hro]
    · by_cases hl : isLeaderB env.raft = false
      · simp [process_json, hm, hid, pjDispatch, hv, hver, hp, hh, hl, hro,
          hro2]
      · simp [process_json, hm, hid, pjDispatch, hv, hver, hp, hh, hl]
    · by_cases hl : isLeaderB env.raft = false
      · simp [process_json, hm, hid, pjDispatch, hv, hver, hp, hh, hl, hro,
          hro2]
      · simp [process_json, hm, hid, pjDispatch, hv, hver, hp, hh, hl]
  rw [hred, hloop, hemit]

/-- Witness for C2: spec scenario S5 shape, a leader with term 5 and
commit index 41, commit version 42, after one conflicting attempt. -/
theorem c2_commit_ok_annotation_witness :
    (∃ emitted,
      process_json
          { raft := some rLeader, nodesMap := none, historyPresent := false,
            store := { currentVersion := 1, commitGap := 0 } }
          [("GET_COMMIT", { rw := .Read, forwardable := .CanForward })] none
          1000 false none
          (.obj [("jsonrpc", .str "2.0"), ("id", .num 7),
            ("method", .str "GET_COMMIT")])
          { commitVersion := 42, readVersion := -1 }
          ([(HandlerOutcome.ret true (.num 0), CommitOutcome.CONFLICT)] ++
            [(HandlerOutcome.ret true (.num 0), CommitOutcome.OK)]) =
        (PJResult.resp (.success 7 (.num 0)
          (commitChain { commitVersion := 42, readVersion := -1 } 1)
          ((some rLeader).map Raft.term) ((some rLeader).map Raft.commitIdx)),
          emitted)) ∧
    1 ≤ commitChain { commitVersion := 42, readVersion := -1 } 1 ∧
    (({ commitVersion := 42, readVersion := -1 } : TxModel).commitVersion ≠ 0 →
      commitChain { commitVersion := 42, readVersion := -1 } 1 = 42) ∧
    (({ commitVersion := 42, readVersion := -1 } : TxModel).commitVersion = 0 ∧
        ({ commitVersion := 42, readVersion := -1 } : TxModel).readVersion ≠
          NoVersion →
      commitChain { commitVersion := 42, readVersion := -1 } 1 = -1) ∧
    (({ commitVersion := 42, readVersion := -1 } : TxModel).commitVersion = 0 ∧
        ({ commitVersion := 42, readVersion := -1 } : TxModel).readVersion =
          NoVersion →
      commitChain { commitVersion := 42, readVersion := -1 } 1 = 1) :=
  c2_commit_ok_annotation
    { raft := some rLeader, nodesMap := none, historyPresent := false,
      store := { currentVersion := 1, commitGap := 0 } }
    [("GET_COMMIT", { rw := .Read, forwardable := .CanForward })] none 1000
    false none
    (.obj [("jsonrpc", .str "2.0"), ("id", .num 7),
      ("method", .str "GET_COMMIT")])
    { commitVersion := 42, readVersion := -1 }
    { rw := .Read, forwardable := .CanForward } "GET_COMMIT" 7 (.str "2.0")
    (.num 0) [(HandlerOutcome.ret true (.num 0), CommitOutcome.CONFLICT)]
    rfl rfl rfl rfl rfl rfl (Or.inl rfl)
    (by intro a ha; exact ⟨.num 0, by simpa using ha⟩)
    (Or.inr (by norm_num)) (Or.inl rfl) (by norm_num)

end CCF
